import Mathlib

/-
Shallow embedding of src/src/as-release.c (AppStream release records).

The release record, its enum codecs, direct mutators, the XML and YAML
loaders and the XML/YAML emitters are translated into executable Lean
definitions.  External collaborators that live outside this file's source
(the ISO-8601 date parser and formatter from as-utils, the atol libc
routine, the Artifact/Issue sub-loaders, the locale machinery) are
abstracted into an `Externals` record of function parameters, so theorems
quantify over every possible behaviour of those collaborators; a concrete
instantiation `extModel` is provided to exercise the model on closed
inputs.
-/

/-- AsReleaseKind: release kinds (stable, development, unknown). -/
inductive ReleaseKind where
  | stable
  | development
  | unknown
deriving DecidableEq

/-- AsUrgencyKind: urgency of a release. -/
inductive UrgencyKind where
  | unknown
  | low
  | medium
  | high
  | critical
deriving DecidableEq

/-- AsReleaseUrlKind: kinds of release URLs. -/
inductive ReleaseUrlKind where
  | details
  | unknown
deriving DecidableEq

/-- AsFormatStyle: the document style carried by the context. -/
inductive FormatStyle where
  | metainfo
  | catalog
deriving DecidableEq

/-- as_release_kind_to_string. -/
def releaseKindToString : ReleaseKind → String
  | .stable => "stable"
  | .development => "development"
  | .unknown => "unknown"

/-- as_release_kind_from_string; the argument is nullable (g_strcmp0 with
NULL compares unequal to every literal, so NULL falls through to unknown). -/
def releaseKindFromString (s : Option String) : ReleaseKind :=
  if s = some "stable" then .stable
  else if s = some "development" then .development
  else .unknown

/-- as_urgency_kind_to_string. -/
def urgencyKindToString : UrgencyKind → String
  | .low => "low"
  | .medium => "medium"
  | .high => "high"
  | .critical => "critical"
  | .unknown => "unknown"

/-- as_urgency_kind_from_string (nullable argument, as with the kind codec). -/
def urgencyKindFromString (s : Option String) : UrgencyKind :=
  if s = some "low" then .low
  else if s = some "medium" then .medium
  else if s = some "high" then .high
  else if s = some "critical" then .critical
  else .unknown

/-- as_release_url_kind_to_string. -/
def releaseUrlKindToString : ReleaseUrlKind → String
  | .details => "details"
  | .unknown => "unknown"

/-- as_release_url_kind_from_string: a NULL pointer maps to details; any
other string is compared against "details" and otherwise maps to unknown. -/
def releaseUrlKindFromString : Option String → ReleaseUrlKind
  | none => .details
  | some str => if str = "details" then .details else .unknown

/-- A libxml2 element tree node, reduced to what as-release.c reads from
it: tag name, attribute list (first occurrence wins for lookups), element
children, text content, and whether the node is an XML_ELEMENT_NODE. -/
structure XmlNode where
  name : String
  attrs : List (String × String)
  children : List XmlNode
  content : String
  isElement : Bool

/-- as_xml_get_prop_value: the value of the first attribute with the given
name, or NULL when absent. -/
def XmlNode.getProp (n : XmlNode) (key : String) : Option String :=
  (n.attrs.find? (fun p => p.1 = key)).map (fun p => p.2)

/-- A DEP-11 YAML mapping-entry node (GNode) as seen through
as_yaml_node_get_key / as_yaml_node_get_value: a key, an optional scalar
value, and child entries. -/
structure YNode where
  key : String
  value : Option String
  children : List YNode

/-- Modelled from the spec: an AsIssue nested record (as-issue.c is outside
the sources at hand); §6 treats it as an opaque collaborator exposing only
load/emit operations, so its payload is opaque here. -/
structure Issue where
  payload : String
deriving DecidableEq

/-- Modelled from the spec: an AsArtifact nested record, opaque collaborator
exactly as Issue. -/
structure Artifact where
  payload : String
deriving DecidableEq

/-- The AsContext data that as-release.c reads: the active format style and
the filename used in diagnostics. -/
structure Context where
  style : FormatStyle
  filename : String
deriving DecidableEq

/-- AsReleasePrivate: the release record. guint64 fields are Nats holding
values below 2^64; NULL-able strings are Options; the description table is
a locale-keyed association list. -/
structure Release where
  kind : ReleaseKind
  version : Option String
  description : List (String × String)
  timestamp : Nat
  date : Option String
  dateEol : Option String
  context : Option Context
  descTranslatable : Bool
  issues : List Issue
  artifacts : List Artifact
  urlDetails : Option String
  urgency : UrgencyKind
deriving DecidableEq

/-- as_release_init / as_release_new: the freshly constructed record. -/
def freshRelease : Release :=
  { kind := .stable
    version := none
    description := []
    timestamp := 0
    date := none
    dateEol := none
    context := none
    descTranslatable := true
    issues := []
    artifacts := []
    urlDetails := none
    urgency := .unknown }

/-- Conversion of a C gint64 value into the guint64 timestamp field:
reduction modulo 2^64, yielding a Nat below 2^64. -/
def toU64 (i : Int) : Nat := (i % (2 ^ 64 : Int)).toNat

/-- External collaborators of as-release.c, abstracted as function
parameters: the ISO-8601 parser and formatter from as-utils (parse is
composed with g_date_time_to_unix; format with g_date_time_new_from_unix_utc,
which can fail out of range, hence the Option result), libc atol, the
Artifact/Issue sub-loaders and sub-emitters, and the locale helpers. -/
structure Externals where
  parseIso : String → Option Int
  fmtIso : Nat → Option String
  atol : String → Int
  loadIssueXml : Context → XmlNode → Option Issue
  loadArtifactXml : Context → XmlNode → Option Artifact
  issueToXml : Context → Issue → XmlNode
  artifactToXml : Context → Artifact → XmlNode
  localeMatch : Context → XmlNode → Option String
  dumpNodeChildren : XmlNode → String
  parseMetainfoDesc : Context → XmlNode → List (String × String)
  getNodeValue : XmlNode → Option String
  descriptionToXml : Context → List (String × String) → Bool → List XmlNode
  loadIssueYaml : Context → YNode → Option Issue
  loadArtifactYaml : Context → YNode → Option Artifact
  yamlLocalizedTable : Context → YNode → List (String × String)
  issueToYaml : Context → Issue → List (String × String)
  artifactToYaml : Context → Artifact → List (String × String)

/-- Modelled from the spec: as_context_localized_ht_set (as-context.c is
outside the sources at hand) inserts one entry into the locale-keyed table,
keeping keys unique (§3: "keys unique"). -/
def htSet (table : List (String × String)) (value : String) (locale : String) :
    List (String × String) :=
  (table.filter (fun p => p.1 ≠ locale)) ++ [(locale, value)]

/-- as_release_set_version: as_assign_string_safe replaces the stored string
with a copy of the argument; g_strdup of NULL is NULL, so a NULL argument
clears the field. (as_assign_string_safe itself lives in as-utils-private.h,
outside the sources at hand; modelled from the spec's "optional string"
field contract.) -/
def setVersion (rel : Release) (version : Option String) : Release :=
  { rel with version := version }

/-- as_release_set_timestamp: stores the timestamp and unconditionally
recomputes the date string as the ISO-8601 UTC formatting of it. -/
def setTimestamp (ext : Externals) (rel : Release) (timestamp : Nat) : Release :=
  { rel with timestamp := timestamp, date := ext.fmtIso timestamp }

/-- as_release_set_date: parses the argument as ISO-8601; on success stores
the derived epoch value and the argument verbatim, on failure emits a
g_warning diagnostic and returns without touching the record. -/
def setDate (ext : Externals) (rel : Release) (date : String) : Release × List String :=
  match ext.parseIso date with
  | some t => ({ rel with timestamp := toU64 t, date := some date }, [])
  | none => (rel, ["Tried to set invalid release date: " ++ date])

/-- as_release_set_date_eol: stores the EOL date string verbatim. -/
def setDateEol (rel : Release) (date : String) : Release :=
  { rel with dateEol := some date }

/-- as_release_get_timestamp_eol: 0 when date_eol is unset; otherwise parses
date_eol afresh, returning the derived epoch value, or 0 plus a g_warning
diagnostic when the parse fails. -/
def getTimestampEol (ext : Externals) (rel : Release) : Nat × List String :=
  match rel.dateEol with
  | none => (0, [])
  | some d =>
    match ext.parseIso d with
    | some t => (toU64 t, [])
    | none => (0, ["Unable to retrieve EOL timestamp from EOL date: " ++ d])

/-- as_release_set_url for the details kind: as_assign_string_safe on the
url_details field (NULL clears it). -/
def setUrl (rel : Release) (url : Option String) : Release :=
  { rel with urlDetails := url }

/-- as_release_load_from_xml, "type" attribute block: only applied when the
attribute is present. -/
def applyTypeAttr (rel : Release) (node : XmlNode) : Release :=
  match node.getProp "type" with
  | some p => { rel with kind := releaseKindFromString (some p) }
  | none => rel

/-- as_release_load_from_xml, "version" attribute block: the setter is
invoked unconditionally with the possibly-NULL attribute value. -/
def applyVersionAttr (rel : Release) (node : XmlNode) : Release :=
  setVersion rel (node.getProp "version")

/-- as_release_load_from_xml, "date" attribute block: a well-formed date
sets the timestamp to the derived epoch value and stores the attribute text
as the date; a malformed one is logged via g_debug and discarded. -/
def applyDateAttr (ext : Externals) (ctx : Context) (rel : Release) (node : XmlNode) :
    Release × List String :=
  match node.getProp "date" with
  | some p =>
    match ext.parseIso p with
    | some t => ({ rel with timestamp := toU64 t, date := some p }, [])
    | none => (rel, ["Invalid ISO-8601 date in releases at " ++ ctx.filename])
  | none => (rel, [])

/-- as_release_load_from_xml, "date_eol" attribute block. -/
def applyDateEolAttr (rel : Release) (node : XmlNode) : Release :=
  match node.getProp "date_eol" with
  | some p => { rel with dateEol := some p }
  | none => rel

/-- as_release_load_from_xml, "timestamp" attribute block: atol of the
attribute text, assigned to the guint64 field (overwriting any value the
"date" attribute derived). -/
def applyTimestampAttr (ext : Externals) (rel : Release) (node : XmlNode) : Release :=
  match node.getProp "timestamp" with
  | some p => { rel with timestamp := toU64 (ext.atol p) }
  | none => rel

/-- as_release_load_from_xml, "urgency" attribute block. -/
def applyUrgencyAttr (rel : Release) (node : XmlNode) : Release :=
  match node.getProp "urgency" with
  | some p => { rel with urgency := urgencyKindFromString (some p) }
  | none => rel

/-- as_release_load_from_xml, one iteration of the child-element loop:
dispatch on the tag name; non-element nodes are skipped; artifacts and
issues children that fail their own load are dropped while successful
siblings are appended in document order. -/
def loadChildXml (ext : Externals) (ctx : Context) (rel : Release) (iter : XmlNode) :
    Release :=
  if !iter.isElement then rel
  else if iter.name = "artifacts" then
    { rel with
      artifacts := rel.artifacts ++
        (iter.children.filter (fun c => c.isElement)).filterMap
          (ext.loadArtifactXml ctx) }
  else if iter.name = "description" then
    let relc := { rel with description := [] }
    if ctx.style = .catalog then
      let content := ext.dumpNodeChildren iter
      match ext.localeMatch ctx iter with
      | some lang => { relc with description := htSet [] content lang }
      | none => relc
    else
      let rel2 := { relc with
        description := ext.parseMetainfoDesc ctx iter
        descTranslatable := true }
      match iter.getProp "translatable" with
      | some p => { rel2 with descTranslatable := p ≠ "no" }
      | none => rel2
  else if iter.name = "url" then
    setUrl rel (ext.getNodeValue iter)
  else if iter.name = "issues" then
    { rel with
      issues := rel.issues ++
        (iter.children.filter (fun c => c.isElement)).filterMap
          (ext.loadIssueXml ctx) }
  else rel

/-- Outcome of a load call: the gboolean return value, the updated record,
and the diagnostics (g_debug/g_warning messages) emitted along the way. -/
structure LoadResult where
  ok : Bool
  rel : Release
  diags : List String
deriving DecidableEq

/-- as_release_load_from_xml: binds the context, reads the six attributes in
their fixed source order, walks the children once, and returns TRUE. -/
def loadFromXml (ext : Externals) (ctx : Context) (rel : Release) (node : XmlNode) :
    LoadResult :=
  let r0 := { rel with context := some ctx }
  let r1 := applyTypeAttr r0 node
  let r2 := applyVersionAttr r1 node
  let rd := applyDateAttr ext ctx r2 node
  let r4 := applyDateEolAttr rd.1 node
  let r5 := applyTimestampAttr ext r4 node
  let r6 := applyUrgencyAttr r5 node
  let r7 := node.children.foldl (loadChildXml ext ctx) r6
  { ok := true, rel := r7, diags := rd.2 }

/-- as_release_to_xml_node: builds the "release" element. Attributes are
appended in source order: type and version always (as_xml_add_text_prop
writes an empty attribute for a NULL version, per the tree-writer
convention), then timestamp or date depending on style when the timestamp
is non-zero, then date_eol and urgency when set. Children are the
description nodes, the details URL, and the issues/artifacts wrappers,
the wrappers only when their sequence is non-empty. -/
def toXmlNode (ext : Externals) (ctx : Context) (rel : Release) : XmlNode :=
  let attrs1 := [("type", releaseKindToString rel.kind),
                 ("version", rel.version.getD "")]
  let attrs2 := attrs1 ++
    (if rel.timestamp > 0 then
      if ctx.style = .catalog then [("timestamp", toString rel.timestamp)]
      else [("date", (ext.fmtIso rel.timestamp).getD "")]
    else [])
  let attrs3 := attrs2 ++
    (match rel.dateEol with
     | some e => [("date_eol", e)]
     | none => [])
  let attrs4 := attrs3 ++
    (if rel.urgency ≠ .unknown then [("urgency", urgencyKindToString rel.urgency)]
     else [])
  let childDesc := ext.descriptionToXml ctx rel.description rel.descTranslatable
  let childUrl :=
    match rel.urlDetails with
    | some u => [XmlNode.mk "url" [] [] u true]
    | none => []
  let childIssues :=
    if rel.issues ≠ [] then
      [XmlNode.mk "issues" [] (rel.issues.map (ext.issueToXml ctx)) "" true]
    else []
  let childArtifacts :=
    if rel.artifacts ≠ [] then
      [XmlNode.mk "artifacts" [] (rel.artifacts.map (ext.artifactToXml ctx)) "" true]
    else []
  XmlNode.mk "release" attrs4 (childDesc ++ childUrl ++ childIssues ++ childArtifacts)
    "" true

/-- Whether the attribute list of a node carries an attribute with the given
name. -/
def XmlNode.hasAttr (n : XmlNode) (key : String) : Bool :=
  n.attrs.any (fun p => p.1 = key)

/-- One top-level entry of the YAML emission of a release, keeping the
structure the emitter helpers produce: plain key/value entries (which the
helper suppresses for a NULL value), the integer unix-timestamp entry, the
localized description entry, the nested url mapping, and the issue and
artifact sequences. -/
inductive YEntry where
  | scalarEntry (key : String) (value : String)
  | tsEntry (key : String) (value : Nat)
  | localizedEntry (key : String) (table : List (String × String))
  | mapEntry (key : String) (pairs : List (String × String))
  | issueSeq (key : String) (items : List (List (String × String)))
  | artifactSeq (key : String) (items : List (List (String × String)))
deriving DecidableEq

/-- The key of a YAML entry. -/
def YEntry.key : YEntry → String
  | .scalarEntry k _ => k
  | .tsEntry k _ => k
  | .localizedEntry k _ => k
  | .mapEntry k _ => k
  | .issueSeq k _ => k
  | .artifactSeq k _ => k

/-- Modelled from the spec: as_yaml_emit_entry (as-yaml-utils, outside the
sources at hand) writes nothing when the value is NULL (§4.5: optional
entries are emitted only if non-empty). -/
def yamlEntryOpt (key : String) (value : Option String) : List YEntry :=
  match value with
  | some v => [.scalarEntry key v]
  | none => []

/-- as_release_emit_yaml: emits the release mapping entries in source
order: version, type, unix-timestamp or date (by style, when the timestamp
is non-zero; a date string that fails to format is suppressed by the entry
helper), date-eol, urgency when set, the localized description (suppressed
when the table is empty), the url mapping, and the issue and artifact
sequences when non-empty. -/
def emitYaml (ext : Externals) (ctx : Context) (rel : Release) : List YEntry :=
  yamlEntryOpt "version" rel.version ++
  [.scalarEntry "type" (releaseKindToString rel.kind)] ++
  (if rel.timestamp > 0 then
    if ctx.style = .catalog then [.tsEntry "unix-timestamp" rel.timestamp]
    else yamlEntryOpt "date" (ext.fmtIso rel.timestamp)
  else []) ++
  yamlEntryOpt "date-eol" rel.dateEol ++
  (if rel.urgency ≠ .unknown then
    [.scalarEntry "urgency" (urgencyKindToString rel.urgency)]
  else []) ++
  (if rel.description ≠ [] then [.localizedEntry "description" rel.description]
   else []) ++
  (match rel.urlDetails with
   | some u => [.mapEntry "url" [(releaseUrlKindToString .details, u)]]
   | none => []) ++
  (if rel.issues ≠ [] then [.issueSeq "issues" (rel.issues.map (ext.issueToYaml ctx))]
   else []) ++
  (if rel.artifacts ≠ [] then
    [.artifactSeq "artifacts" (rel.artifacts.map (ext.artifactToYaml ctx))]
  else [])

/-- Whether a YAML emission carries an entry with the given key. -/
def yamlHasKey (entries : List YEntry) (key : String) : Bool :=
  entries.any (fun e => e.key = key)

/-- as_release_load_from_yaml, one iteration of the inner url-mapping loop:
a child whose key parses to a known URL kind and whose value is non-NULL
sets that URL; others are skipped individually. -/
def applyYamlUrlChild (acc : Release) (c : YNode) : Release :=
  if releaseUrlKindFromString (some c.key) ≠ .unknown ∧ c.value.isSome then
    setUrl acc c.value
  else acc

/-- as_release_load_from_yaml, one iteration of the mapping-entry loop:
dispatch on the entry key. The unix-timestamp branch assigns atol of the
value; the date branch parses ISO-8601 and on failure logs via g_debug and
leaves the timestamp alone; unknown keys are reported on the diagnostics
channel without failing the load. -/
def loadYamlEntry (ext : Externals) (ctx : Context) (rel : Release) (n : YNode) :
    Release × List String :=
  match n.key with
  | "unix-timestamp" =>
    (match n.value with
     | some v => { rel with timestamp := toU64 (ext.atol v) }
     | none => rel, [])
  | "date" =>
    match n.value with
    | some v =>
      match ext.parseIso v with
      | some t => ({ rel with timestamp := toU64 t }, [])
      | none => (rel, ["Invalid ISO-8601 release date in " ++ ctx.filename])
    | none => (rel, ["Invalid ISO-8601 release date in " ++ ctx.filename])
  | "date-eol" =>
    (match n.value with
     | some v => setDateEol rel v
     | none => rel, [])
  | "type" => ({ rel with kind := releaseKindFromString n.value }, [])
  | "version" => (setVersion rel n.value, [])
  | "urgency" => ({ rel with urgency := urgencyKindFromString n.value }, [])
  | "description" => ({ rel with description := ext.yamlLocalizedTable ctx n }, [])
  | "url" => (n.children.foldl applyYamlUrlChild rel, [])
  | "issues" =>
    ({ rel with
       issues := rel.issues ++ n.children.filterMap (ext.loadIssueYaml ctx) }, [])
  | "artifacts" =>
    ({ rel with
       artifacts := rel.artifacts ++ n.children.filterMap (ext.loadArtifactYaml ctx) },
     [])
  | _ => (rel, ["release: unknown key " ++ n.key])

/-- Accumulating step for the YAML mapping walk: thread the record and
collect diagnostics. -/
def loadYamlStep (ext : Externals) (ctx : Context) (acc : Release × List String)
    (n : YNode) : Release × List String :=
  let rd := loadYamlEntry ext ctx acc.1 n
  (rd.1, acc.2 ++ rd.2)

/-- as_release_load_from_yaml: binds the context, walks the mapping entries
once in document order, and returns TRUE. -/
def loadFromYaml (ext : Externals) (ctx : Context) (rel : Release) (node : YNode) :
    LoadResult :=
  let rd := node.children.foldl (loadYamlStep ext ctx)
    ({ rel with context := some ctx }, [])
  { ok := true, rel := rd.1, diags := rd.2 }

/-- Value of a decimal digit run, for the atol model. -/
def digitsVal : List Char → Nat → Nat
  | [], acc => acc
  | c :: cs, acc =>
    if c.isDigit then digitsVal cs (acc * 10 + (c.toNat - 48)) else acc

/-- A concrete model of libc atol: optional leading minus sign followed by
the longest run of decimal digits. -/
def atolModel (s : String) : Int :=
  match s.data with
  | '-' :: cs => -(digitsVal cs 0 : Int)
  | cs => (digitsVal cs 0 : Int)

/-- A concrete instantiation of the external collaborators, used to run the
model on closed inputs: a finite ISO-8601 parse table, a matching formatter,
the atol model, and simple structural Issue/Artifact and locale helpers. -/
def extModel : Externals :=
  { parseIso := fun s =>
      if s = "2020-01-01" then some 1577836800
      else if s = "2020-01-01T00:00:00Z" then some 1577836800
      else if s = "1970-01-01T00:00:00Z" then some 0
      else none
    fmtIso := fun t =>
      if t = 0 then some "1970-01-01T00:00:00Z"
      else if t = 1577836800 then some "2020-01-01T00:00:00Z"
      else some ("epoch+" ++ toString t)
    atol := atolModel
    loadIssueXml := fun _ n => if n.name = "issue" then some ⟨n.content⟩ else none
    loadArtifactXml := fun _ n =>
      if n.name = "artifact" then some ⟨n.content⟩ else none
    issueToXml := fun _ i => XmlNode.mk "issue" [] [] i.payload true
    artifactToXml := fun _ a => XmlNode.mk "artifact" [] [] a.payload true
    localeMatch := fun _ n => n.getProp "xml:lang"
    dumpNodeChildren := fun n => n.content
    parseMetainfoDesc := fun _ n => [("C", n.content)]
    getNodeValue := fun n => some n.content
    descriptionToXml := fun _ table _ =>
      table.map (fun p => XmlNode.mk "description" [("xml:lang", p.1)] [] p.2 true)
    loadIssueYaml := fun _ n => if n.key = "issue" then some ⟨n.value.getD ""⟩ else none
    loadArtifactYaml := fun _ n =>
      if n.key = "artifact" then some ⟨n.value.getD ""⟩ else none
    yamlLocalizedTable := fun _ n => n.children.map (fun c => (c.key, c.value.getD ""))
    issueToYaml := fun _ i => [("id", i.payload)]
    artifactToYaml := fun _ a => [("type", a.payload)] }

/-- A catalog-style document context for closed runs of the model. -/
def ctxCatalog : Context := { style := .catalog, filename := "catalog.xml" }

/-- A metainfo-style document context for closed runs of the model. -/
def ctxMetainfo : Context := { style := .metainfo, filename := "app.metainfo.xml" }

/-- A release element carrying both a well-formed date attribute and a
numeric timestamp attribute. -/
def nodeBothDates : XmlNode :=
  { name := "release"
    attrs := [("date", "2020-01-01"), ("timestamp", "1234567")]
    children := []
    content := ""
    isElement := true }

/-- A release element carrying a malformed date attribute. -/
def nodeBadDate : XmlNode :=
  { name := "release"
    attrs := [("date", "not-a-date"), ("timestamp", "99")]
    children := []
    content := ""
    isElement := true }

/-- A well-formed issue child (the concrete issue loader accepts it). -/
def issueGoodNode : XmlNode :=
  { name := "issue", attrs := [], children := [], content := "gh#12", isElement := true }

/-- A malformed issue child (the concrete issue loader rejects it). -/
def issueBadNode : XmlNode :=
  { name := "bogus", attrs := [], children := [], content := "", isElement := true }

/-- An issues wrapper holding one well-formed and one malformed child. -/
def issuesWrapperNode : XmlNode :=
  { name := "issues"
    attrs := []
    children := [issueGoodNode, issueBadNode]
    content := ""
    isElement := true }

/-- A release element whose only child is the mixed issues wrapper. -/
def nodeWithIssues : XmlNode :=
  { name := "release"
    attrs := []
    children := [issuesWrapperNode]
    content := ""
    isElement := true }

/-- A release element with no version, type or urgency attribute. -/
def nodePlain : XmlNode :=
  { name := "release"
    attrs := [("date", "2020-01-01")]
    children := []
    content := ""
    isElement := true }

/-- A record that already carries a version, kind and urgency. -/
def relPopulated : Release :=
  { freshRelease with version := some "1.2", kind := .development, urgency := .high }

/-- A record carrying only a non-zero timestamp. -/
def relStamped : Release := { freshRelease with timestamp := 1700000000 }

/-- A record whose EOL date parses in the concrete model. -/
def relEolGood : Release := { freshRelease with dateEol := some "2020-01-01" }

/-- A record whose EOL date does not parse in the concrete model. -/
def relEolBad : Release := { freshRelease with dateEol := some "never" }

/-- A YAML release mapping whose only entry is a well-formed date. -/
def ymapDateOnly : YNode :=
  { key := "release"
    value := none
    children := [{ key := "date", value := some "2020-01-01", children := [] }] }

lemma loadChildXml_timestamp (ext : Externals) (ctx : Context) (rel : Release)
    (it : XmlNode) : (loadChildXml ext ctx rel it).timestamp = rel.timestamp := by
  unfold loadChildXml setUrl
  repeat' split <;> try rfl

lemma applyDateAttr_version (ext : Externals) (ctx : Context) (rel : Release)
    (node : XmlNode) : (applyDateAttr ext ctx rel node).1.version = rel.version := by
  unfold applyDateAttr
  repeat' split <;> try rfl

lemma applyTypeAttr_version (rel : Release) (node : XmlNode) :
    (applyTypeAttr rel node).version = rel.version := by
  unfold applyTypeAttr; split <;> rfl

lemma applyTypeAttr_date (rel : Release) (node : XmlNode) :
    (applyTypeAttr rel node).date = rel.date := by
  unfold applyTypeAttr; split <;> rfl

lemma applyTypeAttr_timestamp (rel : Release) (node : XmlNode) :
    (applyTypeAttr rel node).timestamp = rel.timestamp := by
  unfold applyTypeAttr; split <;> rfl

lemma applyTypeAttr_issues (rel : Release) (node : XmlNode) :
    (applyTypeAttr rel node).issues = rel.issues := by
  unfold applyTypeAttr; split <;> rfl

lemma applyTypeAttr_urgency (rel : Release) (node : XmlNode) :
    (applyTypeAttr rel node).urgency = rel.urgency := by
  unfold applyTypeAttr; split <;> rfl

lemma applyVersionAttr_kind (rel : Release) (node : XmlNode) :
    (applyVersionAttr rel node).kind = rel.kind := rfl

lemma applyVersionAttr_date (rel : Release) (node : XmlNode) :
    (applyVersionAttr rel node).date = rel.date := rfl

lemma applyVersionAttr_timestamp (rel : Release) (node : XmlNode) :
    (applyVersionAttr rel node).timestamp = rel.timestamp := rfl

lemma applyVersionAttr_issues (rel : Release) (node : XmlNode) :
    (applyVersionAttr rel node).issues = rel.issues := rfl

lemma applyVersionAttr_urgency (rel : Release) (node : XmlNode) :
    (applyVersionAttr rel node).urgency = rel.urgency := rfl

lemma applyDateAttr_kind (ext : Externals) (ctx : Context) (rel : Release)
    (node : XmlNode) : (applyDateAttr ext ctx rel node).1.kind = rel.kind := by
  unfold applyDateAttr; repeat' split <;> try rfl

lemma applyDateAttr_issues (ext : Externals) (ctx : Context) (rel : Release)
    (node : XmlNode) : (applyDateAttr ext ctx rel node).1.issues = rel.issues := by
  unfold applyDateAttr; repeat' split <;> try rfl

lemma applyDateAttr_urgency (ext : Externals) (ctx : Context) (rel : Release)
    (node : XmlNode) : (applyDateAttr ext ctx rel node).1.urgency = rel.urgency := by
  unfold applyDateAttr; repeat' split <;> try rfl

lemma applyDateEolAttr_kind (rel : Release) (node : XmlNode) :
    (applyDateEolAttr rel node).kind = rel.kind := by
  unfold applyDateEolAttr; split <;> rfl

lemma applyDateEolAttr_version (rel : Release) (node : XmlNode) :
    (applyDateEolAttr rel node).version = rel.version := by
  unfold applyDateEolAttr; split <;> rfl

lemma applyDateEolAttr_date (rel : Release) (node : XmlNode) :
    (applyDateEolAttr rel node).date = rel.date := by
  unfold applyDateEolAttr; split <;> rfl

lemma applyDateEolAttr_timestamp (rel : Release) (node : XmlNode) :
    (applyDateEolAttr rel node).timestamp = rel.timestamp := by
  unfold applyDateEolAttr; split <;> rfl

lemma applyDateEolAttr_issues (rel : Release) (node : XmlNode) :
    (applyDateEolAttr rel node).issues = rel.issues := by
  unfold applyDateEolAttr; split <;> rfl

lemma applyDateEolAttr_urgency (rel : Release) (node : XmlNode) :
    (applyDateEolAttr rel node).urgency = rel.urgency := by
  unfold applyDateEolAttr; split <;> rfl

lemma applyTimestampAttr_kind (ext : Externals) (rel : Release) (node : XmlNode) :
    (applyTimestampAttr ext rel node).kind = rel.kind := by
  unfold applyTimestampAttr; split <;> rfl

lemma applyTimestampAttr_version (ext : Externals) (rel : Release) (node : XmlNode) :
    (applyTimestampAttr ext rel node).version = rel.version := by
  unfold applyTimestampAttr; split <;> rfl

lemma applyTimestampAttr_date (ext : Externals) (rel : Release) (node : XmlNode) :
    (applyTimestampAttr ext rel node).date = rel.date := by
  unfold applyTimestampAttr; split <;> rfl

lemma applyTimestampAttr_issues (ext : Externals) (rel : Release) (node : XmlNode) :
    (applyTimestampAttr ext rel node).issues = rel.issues := by
  unfold applyTimestampAttr; split <;> rfl

lemma applyTimestampAttr_urgency (ext : Externals) (rel : Release) (node : XmlNode) :
    (applyTimestampAttr ext rel node).urgency = rel.urgency := by
  unfold applyTimestampAttr; split <;> rfl

lemma applyUrgencyAttr_kind (rel : Release) (node : XmlNode) :
    (applyUrgencyAttr rel node).kind = rel.kind := by
  unfold applyUrgencyAttr; split <;> rfl

lemma applyUrgencyAttr_version (rel : Release) (node : XmlNode) :
    (applyUrgencyAttr rel node).version = rel.version := by
  unfold applyUrgencyAttr; split <;> rfl

lemma applyUrgencyAttr_date (rel : Release) (node : XmlNode) :
    (applyUrgencyAttr rel node).date = rel.date := by
  unfold applyUrgencyAttr; split <;> rfl

lemma applyUrgencyAttr_timestamp (rel : Release) (node : XmlNode) :
    (applyUrgencyAttr rel node).timestamp = rel.timestamp := by
  unfold applyUrgencyAttr; split <;> rfl

lemma applyUrgencyAttr_issues (rel : Release) (node : XmlNode) :
    (applyUrgencyAttr rel node).issues = rel.issues := by
  unfold applyUrgencyAttr; split <;> rfl

lemma loadChildXml_date (ext : Externals) (ctx : Context) (rel : Release)
    (it : XmlNode) : (loadChildXml ext ctx rel it).date = rel.date := by
  unfold loadChildXml setUrl
  repeat' split <;> try rfl

lemma loadChildXml_version (ext : Externals) (ctx : Context) (rel : Release)
    (it : XmlNode) : (loadChildXml ext ctx rel it).version = rel.version := by
  unfold loadChildXml setUrl
  repeat' split <;> try rfl

lemma loadChildXml_kind (ext : Externals) (ctx : Context) (rel : Release)
    (it : XmlNode) : (loadChildXml ext ctx rel it).kind = rel.kind := by
  unfold loadChildXml setUrl
  repeat' split <;> try rfl

lemma loadChildXml_urgency (ext : Externals) (ctx : Context) (rel : Release)
    (it : XmlNode) : (loadChildXml ext ctx rel it).urgency = rel.urgency := by
  unfold loadChildXml setUrl
  repeat' split <;> try rfl

lemma foldl_loadChildXml_timestamp (ext : Externals) (ctx : Context) :
    ∀ (l : List XmlNode) (rel : Release),
      (l.foldl (loadChildXml ext ctx) rel).timestamp = rel.timestamp := by
  intro l
  induction l with
  | nil => intro rel; rfl
  | cons a l ih =>
    intro rel
    rw [List.foldl_cons, ih, loadChildXml_timestamp]

lemma foldl_loadChildXml_date (ext : Externals) (ctx : Context) :
    ∀ (l : List XmlNode) (rel : Release),
      (l.foldl (loadChildXml ext ctx) rel).date = rel.date := by
  intro l
  induction l with
  | nil => intro rel; rfl
  | cons a l ih =>
    intro rel
    rw [List.foldl_cons, ih, loadChildXml_date]

lemma foldl_loadChildXml_version (ext : Externals) (ctx : Context) :
    ∀ (l : List XmlNode) (rel : Release),
      (l.foldl (loadChildXml ext ctx) rel).version = rel.version := by
  intro l
  induction l with
  | nil => intro rel; rfl
  | cons a l ih =>
    intro rel
    rw [List.foldl_cons, ih, loadChildXml_version]

lemma foldl_loadChildXml_kind (ext : Externals) (ctx : Context) :
    ∀ (l : List XmlNode) (rel : Release),
      (l.foldl (loadChildXml ext ctx) rel).kind = rel.kind := by
  intro l
  induction l with
  | nil => intro rel; rfl
  | cons a l ih =>
    intro rel
    rw [List.foldl_cons, ih, loadChildXml_kind]

lemma foldl_loadChildXml_urgency (ext : Externals) (ctx : Context) :
    ∀ (l : List XmlNode) (rel : Release),
      (l.foldl (loadChildXml ext ctx) rel).urgency = rel.urgency := by
  intro l
  induction l with
  | nil => intro rel; rfl
  | cons a l ih =>
    intro rel
    rw [List.foldl_cons, ih, loadChildXml_urgency]

lemma applyYamlUrlChild_date (acc : Release) (c : YNode) :
    (applyYamlUrlChild acc c).date = acc.date := by
  unfold applyYamlUrlChild setUrl; split <;> rfl

lemma applyYamlUrlChild_timestamp (acc : Release) (c : YNode) :
    (applyYamlUrlChild acc c).timestamp = acc.timestamp := by
  unfold applyYamlUrlChild setUrl; split <;> rfl

lemma foldl_applyYamlUrlChild_date :
    ∀ (l : List YNode) (acc : Release),
      (l.foldl applyYamlUrlChild acc).date = acc.date := by
  intro l
  induction l with
  | nil => intro acc; rfl
  | cons a l ih =>
    intro acc
    rw [List.foldl_cons, ih, applyYamlUrlChild_date]

lemma foldl_applyYamlUrlChild_timestamp :
    ∀ (l : List YNode) (acc : Release),
      (l.foldl applyYamlUrlChild acc).timestamp = acc.timestamp := by
  intro l
  induction l with
  | nil => intro acc; rfl
  | cons a l ih =>
    intro acc
    rw [List.foldl_cons, ih, applyYamlUrlChild_timestamp]

lemma loadYamlEntry_date (ext : Externals) (ctx : Context) (rel : Release)
    (n : YNode) : (loadYamlEntry ext ctx rel n).1.date = rel.date := by
  unfold loadYamlEntry setDateEol setVersion
  repeat' split <;> try rfl
  all_goals simp [foldl_applyYamlUrlChild_date]

lemma loadYamlEntry_timestamp (ext : Externals) (ctx : Context) (rel : Release)
    (n : YNode) (h1 : n.key ≠ "unix-timestamp") (h2 : n.key ≠ "date") :
    (loadYamlEntry ext ctx rel n).1.timestamp = rel.timestamp := by
  unfold loadYamlEntry setDateEol setVersion
  repeat' split <;> try rfl
  all_goals simp_all [foldl_applyYamlUrlChild_timestamp]

lemma foldl_loadYamlStep_date (ext : Externals) (ctx : Context) :
    ∀ (l : List YNode) (acc : Release × List String),
      (l.foldl (loadYamlStep ext ctx) acc).1.date = acc.1.date := by
  intro l
  induction l with
  | nil => intro acc; rfl
  | cons a l ih =>
    intro acc
    rw [List.foldl_cons, ih]
    exact loadYamlEntry_date ext ctx acc.1 a

lemma foldl_loadYamlStep_timestamp (ext : Externals) (ctx : Context) :
    ∀ (l : List YNode) (acc : Release × List String),
      (∀ c ∈ l, c.key ≠ "unix-timestamp" ∧ c.key ≠ "date") →
      (l.foldl (loadYamlStep ext ctx) acc).1.timestamp = acc.1.timestamp := by
  intro l
  induction l with
  | nil => intro acc _; rfl
  | cons a l ih =>
    intro acc h
    rw [List.foldl_cons, ih]
    · exact loadYamlEntry_timestamp ext ctx acc.1 a (h a (by simp)).1 (h a (by simp)).2
    · intro c hc
      exact h c (List.mem_cons_of_mem a hc)

/-- C1 (counterexample): calling as_release_set_timestamp with timestamp 0
does NOT leave the date field unchanged: on a record whose date was unset it
becomes the ISO-8601 formatting of epoch 0 (the setter has no special case
for 0, unlike the loaders). -/
theorem C1_counterexample :
    (setTimestamp extModel freshRelease 0).date ≠ freshRelease.date := by decide

/-- C1 (amended): as_release_set_timestamp stores the given timestamp and
unconditionally recomputes the date field as the ISO-8601 formatting of it,
for every timestamp value, 0 included; the prior date value is discarded. -/
theorem C1_set_timestamp_recomputes_date (ext : Externals) (rel : Release)
    (t : Nat) :
    (setTimestamp ext rel t).timestamp = t ∧
    (setTimestamp ext rel t).date = ext.fmtIso t :=
  ⟨rfl, rfl⟩

/-- C2 (counterexample): as_release_url_kind_from_string of the empty string
is Unknown, not Details — only a NULL pointer gets the Details default. -/
theorem C2_counterexample :
    releaseUrlKindFromString (some "") ≠ ReleaseUrlKind.details := by decide

/-- C2 (amended): as_release_url_kind_from_string returns Details for an
absent (NULL) input and for "details"; the empty string and any other
unrecognized non-empty input such as "bogus" map to Unknown. -/
theorem C2_url_kind_parsing :
    releaseUrlKindFromString none = ReleaseUrlKind.details ∧
    releaseUrlKindFromString (some "") = ReleaseUrlKind.unknown ∧
    releaseUrlKindFromString (some "bogus") = ReleaseUrlKind.unknown ∧
    releaseUrlKindFromString (some "details") = ReleaseUrlKind.details := by
  decide

/-- C8: the release-kind codec round-trips every defined kind and maps an
unrecognized string such as "bogus" to Unknown, and the urgency codec
satisfies the same round-trip and default-on-unrecognized property. -/
theorem C8_enum_codec_roundtrip :
    (∀ k : ReleaseKind, releaseKindFromString (some (releaseKindToString k)) = k) ∧
    releaseKindFromString (some "bogus") = ReleaseKind.unknown ∧
    (∀ u : UrgencyKind, urgencyKindFromString (some (urgencyKindToString u)) = u) ∧
    urgencyKindFromString (some "bogus") = UrgencyKind.unknown := by
  refine ⟨fun k => ?_, by decide, fun u => ?_, by decide⟩
  · cases k <;> rfl
  · cases u <;> rfl

/-- C4: as_release_set_date leaves both the date and the timestamp field
unchanged when the input does not parse as ISO-8601 (raising only a
diagnostic, not a fatal error), and on a successfully parsed input sets the
timestamp to the derived epoch value and stores the input text verbatim as
the date. -/
theorem C4_set_date_behaviour (ext : Externals) (rel : Release) (d : String) :
    (ext.parseIso d = none →
      (setDate ext rel d).1 = rel ∧ (setDate ext rel d).2 ≠ []) ∧
    (∀ t : Int, ext.parseIso d = some t →
      (setDate ext rel d).1.timestamp = toU64 t ∧
      (setDate ext rel d).1.date = some d) := by
  constructor
  · intro h
    unfold setDate
    rw [h]
    exact ⟨rfl, by simp⟩
  · intro t h
    unfold setDate
    rw [h]
    exact ⟨rfl, rfl⟩

/-- C4 (witness): the theorem applied to the concrete model, where
"not-a-date" fails to parse and "2020-01-01" parses to 1577836800. -/
theorem C4_witness :
    (setDate extModel freshRelease "not-a-date").1 = freshRelease ∧
    (setDate extModel freshRelease "not-a-date").2 ≠ [] ∧
    (setDate extModel freshRelease "2020-01-01").1.timestamp = 1577836800 ∧
    (setDate extModel freshRelease "2020-01-01").1.date = some "2020-01-01" := by
  have h1 := (C4_set_date_behaviour extModel freshRelease "not-a-date").1 (by decide)
  have h2 := (C4_set_date_behaviour extModel freshRelease "2020-01-01").2
    1577836800 (by decide)
  have he : toU64 (1577836800 : Int) = 1577836800 := by decide
  exact ⟨h1.1, h1.2, by rw [h2.1, he], h2.2⟩

/-- C7: as_release_get_timestamp_eol returns 0 when date_eol is unset,
returns 0 plus a diagnostic when date_eol is set but fails to parse as
ISO-8601, returns the epoch value derived from date_eol otherwise, and its
result is determined by the date_eol field alone (it re-parses on every
call; the record caches no numeric EOL value). -/
theorem C7_get_timestamp_eol (ext : Externals) (rel rel2 : Release) :
    (rel.dateEol = none → getTimestampEol ext rel = (0, [])) ∧
    (∀ d, rel.dateEol = some d → ext.parseIso d = none →
      (getTimestampEol ext rel).1 = 0 ∧ (getTimestampEol ext rel).2 ≠ []) ∧
    (∀ d t, rel.dateEol = some d → ext.parseIso d = some t →
      (getTimestampEol ext rel).1 = toU64 t) ∧
    (rel.dateEol = rel2.dateEol → getTimestampEol ext rel = getTimestampEol ext rel2) := by
  refine ⟨?_, ?_, ?_, ?_⟩
  · intro h; simp [getTimestampEol, h]
  · intro d h hp
    refine ⟨?_, ?_⟩ <;> simp [getTimestampEol, h, hp]
  · intro d t h hp
    simp [getTimestampEol, h, hp]
  · intro h; unfold getTimestampEol; rw [h]

/-- C7 (witness): the theorem applied to concrete records with an unset, an
unparseable, and a parseable EOL date. -/
theorem C7_witness :
    getTimestampEol extModel freshRelease = (0, []) ∧
    (getTimestampEol extModel relEolBad).1 = 0 ∧
    (getTimestampEol extModel relEolBad).2 ≠ [] ∧
    (getTimestampEol extModel relEolGood).1 = 1577836800 := by
  have h1 := (C7_get_timestamp_eol extModel freshRelease freshRelease).1 (by decide)
  have h2 := (C7_get_timestamp_eol extModel relEolBad relEolBad).2.1
    "never" (by decide) (by decide)
  have h3 := (C7_get_timestamp_eol extModel relEolGood relEolGood).2.2.1
    "2020-01-01" 1577836800 (by decide) (by decide)
  have he : toU64 (1577836800 : Int) = 1577836800 := by decide
  exact ⟨h1, h2.1, h2.2, by rw [h3, he]⟩

/-- C3: in as_release_load_from_xml, when the node carries both a
well-formed date attribute and a timestamp attribute, the final timestamp
field equals the integer atol parses from the timestamp attribute (the
timestamp attribute is processed after the date attribute and overwrites
the value derived from it); and a malformed date attribute is logged and
discarded — the load still returns TRUE and the date field keeps its prior
value. -/
theorem C3_timestamp_attr_overwrites_date (ext : Externals) (ctx : Context)
    (rel : Release) (node : XmlNode) (d s : String)
    (hd : node.getProp "date" = some d)
    (hs : node.getProp "timestamp" = some s) :
    ((∃ t, ext.parseIso d = some t) →
      (loadFromXml ext ctx rel node).rel.timestamp = toU64 (ext.atol s)) ∧
    (ext.parseIso d = none →
      (loadFromXml ext ctx rel node).ok = true ∧
      (loadFromXml ext ctx rel node).rel.date = rel.date ∧
      (loadFromXml ext ctx rel node).diags ≠ []) := by
  have hts : ∀ r : Release,
      (applyTimestampAttr ext r node).timestamp = toU64 (ext.atol s) := by
    intro r
    unfold applyTimestampAttr
    rw [hs]
  constructor
  · intro _
    show (node.children.foldl (loadChildXml ext ctx) _).timestamp = _
    rw [foldl_loadChildXml_timestamp, applyUrgencyAttr_timestamp, hts]
  · intro hn
    have hda : ∀ r : Release, applyDateAttr ext ctx r node =
        (r, ["Invalid ISO-8601 date in releases at " ++ ctx.filename]) := by
      intro r
      simp [applyDateAttr, hd, hn]
    refine ⟨rfl, ?_, ?_⟩
    · show (node.children.foldl (loadChildXml ext ctx) _).date = _
      rw [foldl_loadChildXml_date, applyUrgencyAttr_date, applyTimestampAttr_date,
        applyDateEolAttr_date, hda, applyVersionAttr_date, applyTypeAttr_date]
    · show (applyDateAttr ext ctx _ node).2 ≠ []
      rw [hda]
      simp

/-- C3 (witness): loading a node carrying date "2020-01-01" (which parses
in the concrete model) and timestamp "1234567" yields timestamp 1234567. -/
theorem C3_witness :
    (loadFromXml extModel ctxCatalog freshRelease nodeBothDates).rel.timestamp =
      1234567 := by
  have h := (C3_timestamp_attr_overwrites_date extModel ctxCatalog freshRelease
    nodeBothDates "2020-01-01" "1234567" (by decide) (by decide)).1
    ⟨1577836800, by decide⟩
  rw [h]
  decide

/-- C9: as_release_load_from_xml invokes the version setter unconditionally
with the possibly-absent attribute value, so a node without a version
attribute resets a previously set version to NULL; by contrast the type and
urgency attributes are only applied when present, so their fields keep
their prior values. -/
theorem C9_missing_version_attr_resets (ext : Externals) (ctx : Context)
    (rel : Release) (node : XmlNode)
    (hv : node.getProp "version" = none)
    (ht : node.getProp "type" = none)
    (hu : node.getProp "urgency" = none) :
    (loadFromXml ext ctx rel node).rel.version = none ∧
    (loadFromXml ext ctx rel node).rel.kind = rel.kind ∧
    (loadFromXml ext ctx rel node).rel.urgency = rel.urgency := by
  have hav : ∀ r : Release, (applyVersionAttr r node).version = node.getProp "version" :=
    fun r => rfl
  have hat : ∀ r : Release, applyTypeAttr r node = r := by
    intro r
    unfold applyTypeAttr
    rw [ht]
  have hau : ∀ r : Release, applyUrgencyAttr r node = r := by
    intro r
    unfold applyUrgencyAttr
    rw [hu]
  refine ⟨?_, ?_, ?_⟩
  · show (node.children.foldl (loadChildXml ext ctx) _).version = none
    rw [foldl_loadChildXml_version, applyUrgencyAttr_version,
      applyTimestampAttr_version, applyDateEolAttr_version, applyDateAttr_version,
      hav, hv]
  · show (node.children.foldl (loadChildXml ext ctx) _).kind = rel.kind
    rw [foldl_loadChildXml_kind, applyUrgencyAttr_kind, applyTimestampAttr_kind,
      applyDateEolAttr_kind, applyDateAttr_kind, applyVersionAttr_kind, hat]
  · show (node.children.foldl (loadChildXml ext ctx) _).urgency = rel.urgency
    rw [foldl_loadChildXml_urgency, hau, applyTimestampAttr_urgency,
      applyDateEolAttr_urgency, applyDateAttr_urgency, applyVersionAttr_urgency,
      applyTypeAttr_urgency]

/-- C9 (witness): loading a version-less node over a record that carried
version "1.2", development kind and high urgency clears the version and
keeps kind and urgency. -/
theorem C9_witness :
    (loadFromXml extModel ctxMetainfo relPopulated nodePlain).rel.version = none ∧
    (loadFromXml extModel ctxMetainfo relPopulated nodePlain).rel.kind =
      ReleaseKind.development ∧
    (loadFromXml extModel ctxMetainfo relPopulated nodePlain).rel.urgency =
      UrgencyKind.high := by
  have h := C9_missing_version_attr_resets extModel ctxMetainfo relPopulated
    nodePlain (by decide) (by decide) (by decide)
  exact ⟨h.1, h.2.1, h.2.2⟩

/-- C6: as_release_load_from_xml returns TRUE unconditionally for every
tree node, and within an issues block a child whose own load fails is
dropped while a well-formed sibling is still added, in document order: one
well-formed plus one malformed issue child yield exactly the one
successfully loaded entry. -/
theorem C6_load_total_and_issue_skip (ext : Externals) (ctx : Context)
    (rel : Release) (node wrapper good bad : XmlNode) (i : Issue)
    (hch : node.children = [wrapper])
    (hel : wrapper.isElement = true)
    (hnm : wrapper.name = "issues")
    (hwch : wrapper.children = [good, bad])
    (hgel : good.isElement = true)
    (hbel : bad.isElement = true)
    (hgood : ext.loadIssueXml ctx good = some i)
    (hbad : ext.loadIssueXml ctx bad = none) :
    (∀ n : XmlNode, (loadFromXml ext ctx rel n).ok = true) ∧
    (loadFromXml ext ctx rel node).rel.issues = rel.issues ++ [i] := by
  have hstep : ∀ r : Release,
      loadChildXml ext ctx r wrapper = { r with issues := r.issues ++ [i] } := by
    intro r
    simp [loadChildXml, hel, hnm, hwch, hgel, hbel, hgood, hbad]
  constructor
  · intro n
    rfl
  · show (node.children.foldl (loadChildXml ext ctx) _).issues = _
    rw [hch, List.foldl_cons, List.foldl_nil, hstep]
    rw [show ∀ r : Release, ({ r with issues := r.issues ++ [i] } : Release).issues
        = r.issues ++ [i] from fun r => rfl]
    rw [applyUrgencyAttr_issues, applyTimestampAttr_issues, applyDateEolAttr_issues,
      applyDateAttr_issues, applyVersionAttr_issues, applyTypeAttr_issues]

/-- C6 (witness): the mixed issues block in the concrete model yields
exactly the well-formed entry, and the load returns TRUE. -/
theorem C6_witness :
    (loadFromXml extModel ctxCatalog freshRelease nodeWithIssues).ok = true ∧
    (loadFromXml extModel ctxCatalog freshRelease nodeWithIssues).rel.issues =
      [⟨"gh#12"⟩] := by
  have h := C6_load_total_and_issue_skip extModel ctxCatalog freshRelease
    nodeWithIssues issuesWrapperNode issueGoodNode issueBadNode ⟨"gh#12"⟩
    rfl rfl rfl rfl rfl rfl (by decide) (by decide)
  exact ⟨h.1 nodeWithIssues, h.2⟩

/-- C10: as_release_load_from_yaml never writes the date string field of
the record (so it stays NULL on a fresh record), and on a mapping whose
date entry holds a string that parses as ISO-8601, with every later entry
carrying neither a date nor a unix-timestamp key, the final timestamp field
is the epoch value parsed from that string. -/
theorem C10_yaml_date_sets_only_timestamp (ext : Externals) (ctx : Context)
    (rel : Release) (node : YNode) (d : String) (t : Int)
    (xs ys : List YNode) (dn : YNode)
    (hch : node.children = xs ++ dn :: ys)
    (hk : dn.key = "date")
    (hv : dn.value = some d)
    (hp : ext.parseIso d = some t)
    (hys : ∀ c ∈ ys, c.key ≠ "unix-timestamp" ∧ c.key ≠ "date") :
    (∀ n : YNode, (loadFromYaml ext ctx rel n).rel.date = rel.date) ∧
    (loadFromYaml ext ctx rel node).rel.timestamp = toU64 t := by
  have hdn : ∀ r : Release,
      loadYamlEntry ext ctx r dn = ({ r with timestamp := toU64 t }, []) := by
    intro r
    simp [loadYamlEntry, hk, hv, hp]
  constructor
  · intro n
    show (n.children.foldl (loadYamlStep ext ctx) _).1.date = _
    rw [foldl_loadYamlStep_date]
  · show (node.children.foldl (loadYamlStep ext ctx) _).1.timestamp = _
    rw [hch, List.foldl_append, List.foldl_cons,
      foldl_loadYamlStep_timestamp ext ctx ys _ hys]
    simp only [loadYamlStep]
    rw [hdn]

/-- C10 (witness): loading the single-entry date mapping in the concrete
model yields timestamp 1577836800 while the date field stays NULL. -/
theorem C10_witness :
    (loadFromYaml extModel ctxCatalog freshRelease ymapDateOnly).rel.timestamp =
      1577836800 ∧
    (loadFromYaml extModel ctxCatalog freshRelease ymapDateOnly).rel.date = none := by
  have h := C10_yaml_date_sets_only_timestamp extModel ctxCatalog freshRelease
    ymapDateOnly "2020-01-01" 1577836800 [] []
    ⟨"date", some "2020-01-01", []⟩ rfl rfl rfl (by decide) (by simp)
  refine ⟨?_, h.1 ymapDateOnly⟩
  rw [h.2]
  decide

/-- C5: for a record with a non-zero timestamp, catalog-style emission
writes only the numeric timestamp (XML attribute "timestamp" / YAML key
"unix-timestamp") and never a date field, while non-catalog emission writes
only a formatted date field and never the numeric timestamp; with timestamp
0 neither field is written, in either format. -/
theorem C5_timestamp_emission_styles (ext : Externals) (ctx : Context)
    (rel : Release) :
    (rel.timestamp > 0 → ctx.style = .catalog →
      ("timestamp", toString rel.timestamp) ∈ (toXmlNode ext ctx rel).attrs ∧
      (toXmlNode ext ctx rel).hasAttr "date" = false ∧
      YEntry.tsEntry "unix-timestamp" rel.timestamp ∈ emitYaml ext ctx rel ∧
      yamlHasKey (emitYaml ext ctx rel) "date" = false) ∧
    (rel.timestamp > 0 → ctx.style ≠ .catalog →
      ("date", (ext.fmtIso rel.timestamp).getD "") ∈ (toXmlNode ext ctx rel).attrs ∧
      (toXmlNode ext ctx rel).hasAttr "timestamp" = false ∧
      (∀ v, ext.fmtIso rel.timestamp = some v →
        YEntry.scalarEntry "date" v ∈ emitYaml ext ctx rel) ∧
      yamlHasKey (emitYaml ext ctx rel) "unix-timestamp" = false) ∧
    (rel.timestamp = 0 →
      (toXmlNode ext ctx rel).hasAttr "timestamp" = false ∧
      (toXmlNode ext ctx rel).hasAttr "date" = false ∧
      yamlHasKey (emitYaml ext ctx rel) "unix-timestamp" = false ∧
      yamlHasKey (emitYaml ext ctx rel) "date" = false) := by
  refine ⟨fun ht hc => ⟨?_, ?_, ?_, ?_⟩, fun ht hc => ⟨?_, ?_, ?_, ?_⟩,
    fun h0 => ⟨?_, ?_, ?_, ?_⟩⟩
  · simp [toXmlNode, ht, hc]
  · cases hde : rel.dateEol <;>
      simp [toXmlNode, XmlNode.hasAttr, ht, hc, hde]
  · simp [emitYaml, ht, hc]
  · cases hv : rel.version <;> cases hde : rel.dateEol <;> cases hu : rel.urlDetails <;>
      simp [emitYaml, yamlHasKey, yamlEntryOpt, YEntry.key, ht, hc, hv, hde, hu]
  · simp [toXmlNode, ht, hc]
  · cases hde : rel.dateEol <;>
      simp [toXmlNode, XmlNode.hasAttr, ht, hc, hde]
  · intro v hfmt
    simp [emitYaml, yamlEntryOpt, ht, hc, hfmt]
  · cases hf : ext.fmtIso rel.timestamp <;> cases hv : rel.version <;>
      cases hde : rel.dateEol <;> cases hu : rel.urlDetails <;>
      simp [emitYaml, yamlHasKey, yamlEntryOpt, YEntry.key, ht, hc, hv, hde, hu, hf]
  · cases hde : rel.dateEol <;>
      simp [toXmlNode, XmlNode.hasAttr, h0, hde]
  · cases hde : rel.dateEol <;>
      simp [toXmlNode, XmlNode.hasAttr, h0, hde]
  · cases hv : rel.version <;> cases hde : rel.dateEol <;> cases hu : rel.urlDetails <;>
      simp [emitYaml, yamlHasKey, yamlEntryOpt, YEntry.key, h0, hv, hde, hu]
  · cases hv : rel.version <;> cases hde : rel.dateEol <;> cases hu : rel.urlDetails <;>
      simp [emitYaml, yamlHasKey, yamlEntryOpt, YEntry.key, h0, hv, hde, hu]

/-- C5 (witness): the theorem applied to a record with timestamp 1700000000
in catalog and metainfo style, and to the fresh record with timestamp 0. -/
theorem C5_witness :
    (("timestamp", toString relStamped.timestamp) ∈
        (toXmlNode extModel ctxCatalog relStamped).attrs ∧
      (toXmlNode extModel ctxCatalog relStamped).hasAttr "date" = false ∧
      YEntry.tsEntry "unix-timestamp" relStamped.timestamp ∈
        emitYaml extModel ctxCatalog relStamped ∧
      yamlHasKey (emitYaml extModel ctxCatalog relStamped) "date" = false) ∧
    (("date", (extModel.fmtIso relStamped.timestamp).getD "") ∈
        (toXmlNode extModel ctxMetainfo relStamped).attrs ∧
      (toXmlNode extModel ctxMetainfo relStamped).hasAttr "timestamp" = false ∧
      (∀ v, extModel.fmtIso relStamped.timestamp = some v →
        YEntry.scalarEntry "date" v ∈ emitYaml extModel ctxMetainfo relStamped) ∧
      yamlHasKey (emitYaml extModel ctxMetainfo relStamped) "unix-timestamp" = false) ∧
    ((toXmlNode extModel ctxCatalog freshRelease).hasAttr "timestamp" = false ∧
      (toXmlNode extModel ctxCatalog freshRelease).hasAttr "date" = false ∧
      yamlHasKey (emitYaml extModel ctxCatalog freshRelease) "unix-timestamp" = false ∧
      yamlHasKey (emitYaml extModel ctxCatalog freshRelease) "date" = false) :=
  ⟨(C5_timestamp_emission_styles extModel ctxCatalog relStamped).1 (by decide) rfl,
   (C5_timestamp_emission_styles extModel ctxMetainfo relStamped).2.1
     (by decide) (by decide),
   (C5_timestamp_emission_styles extModel ctxCatalog freshRelease).2.2 rfl⟩
